import Mathlib

/-!
Verification of the license validation engine of `app.py`
(`EnhancedDatabaseManager` plus the Flask admin routes that carry the
lifecycle logic).  The store tables (`serials`, `blacklist`, `auth_tokens`,
`validation_logs`) and the in-memory token cache (`self.active_tokens`)
are embedded as lists of records; timestamps are integer seconds
(`timedelta(days=d)` = `d * 86400` seconds, `timedelta(hours=24)` =
`86400` seconds).  Each Python method that opens a connection, mutates,
and commits is embedded as a pure function from the store state to a new
store state; `cursor.fetchone()` on a `WHERE`-query is `List.find?`, an
`UPDATE ... WHERE` is a `List.map` guarded by the `WHERE` predicate, an
`INSERT` prepends.  Columns that no embedded operation reads or that hold
only constants (`created_by`, `encryption_type`, `generator_version`,
`user_agent`, `client_ip_history`, `security_flags`, licensing columns,
`response_time_ms` wall-clock measurement) are omitted.  Exception
handlers (`StoreUnavailable`) are out of scope: the embedding models the
non-throwing executions.
-/

namespace BossDetector

/-- Models `hashlib.sha256(s.encode()).hexdigest()` (`hash_serial` at
`app.py:616` and the token digests at `app.py:459,520`): a deterministic,
injective one-way digest.  It is modelled as a tagged string, which has
exactly the properties the claims use: it is a pure function of its
input, distinct inputs give distinct digests, and a digest is never equal
to the raw input string. -/
def sha256Hex (s : String) : String := "sha256#" ++ s

/-- One row of the `serials` table (schema at `app.py:133-176` /
`app.py:335-378`), restricted to the columns the embedded operations read
or write. -/
structure SerialRec where
  serialKey : String
  serialHash : String
  machineId : String
  userName : String
  tier : String
  createdDate : Int
  expiryDate : Int
  isActive : Bool
  lastCheckTime : Option Int
  checkCount : Nat
  revokedDate : Option Int
  revokedReason : Option String
  forceOnline : Bool
  validationRequired : Bool
  offlineDisabled : Bool
  serverValidationOnly : Bool
  forceOnlineMarker : Option String
  lastValidationToken : Option String
  validationCount : Nat
  lastClientIp : Option String
  updatedAt : Int
  deriving DecidableEq

/-- One row of the `blacklist` table (schema at `app.py:179-196`). -/
structure BlacklistRec where
  machineId : String
  reason : String
  createdDate : Int
  severityLevel : Int
  isActive : Bool
  updatedAt : Int
  deriving DecidableEq

/-- One row of the `auth_tokens` table (schema at `app.py:226-240`):
only the SHA-256 digest of the token is a column. -/
structure AuthTokenRec where
  tokenHash : String
  tokenType : String
  createdAt : Int
  expiresAt : Int
  isActive : Bool
  usageCount : Nat
  lastUsedAt : Option Int
  deriving DecidableEq

/-- One entry of the in-memory token cache `self.active_tokens`
(`app.py:77`): keyed by the RAW token string. -/
structure CacheEntry where
  token : String
  expiresAt : Int
  tokenType : String
  createdAt : Int
  deriving DecidableEq

/-- One row of the `validation_logs` table as written by
`_log_validation_enhanced` (`app.py:915-944`). -/
structure LogRec where
  serialHash : String
  machineId : String
  validationTime : Int
  result : String
  clientIp : String
  validationToken : Option String
  forceOnlineCheck : Bool
  serverValidation : Bool
  validationMethod : String
  errorDetails : Option String
  deriving DecidableEq

/-- The whole durable store plus the in-memory token cache. -/
structure DBState where
  serials : List SerialRec
  blacklist : List BlacklistRec
  authTokens : List AuthTokenRec
  activeTokens : List CacheEntry
  validationLogs : List LogRec
  deriving DecidableEq

def emptyDB : DBState :=
  { serials := [], blacklist := [], authTokens := [], activeTokens := [],
    validationLogs := [] }

/-- The verdict dictionary returned by `validate_serial_enhanced`
(`app.py:701-913`), one constructor per return site, carrying the
decision-relevant payload fields. -/
inductive ValidateOutcome where
  | blacklisted (reason : String) (severityLevel : Int)
  | notFound
  | tokenRequired
  | invalidToken
  | machineMismatch (requiresOnline : Bool)
  | revoked (requiresOnline : Bool)
  | expired (requiresOnline : Bool)
  | valid (tier userName : String) (expiryDate remainingDays : Int)
      (checkCount validationCount : Nat)
      (forceOnline validationRequired : Bool)
  deriving DecidableEq

/-- True exactly on the success verdict (`'valid': True`). -/
def ValidateOutcome.isValid : ValidateOutcome → Bool
  | .valid _ _ _ _ _ _ _ _ => true
  | _ => false

/-- True exactly on the `MACHINE_MISMATCH` verdict. -/
def ValidateOutcome.isMachineMismatch : ValidateOutcome → Bool
  | .machineMismatch _ => true
  | _ => false

/-- Builds the row `_log_validation_enhanced` inserts
(`validation_method` is the constant `'enhanced_v6'`). -/
def mkLog (serialHash machineId : String) (time : Int) (result clientIp : String)
    (tok : Option String) (foc sv : Bool) (err : Option String) : LogRec :=
  { serialHash := serialHash, machineId := machineId, validationTime := time,
    result := result, clientIp := clientIp, validationToken := tok,
    forceOnlineCheck := foc, serverValidation := sv,
    validationMethod := "enhanced_v6", errorDetails := err }

/-- The `INSERT INTO validation_logs` of `_log_validation_enhanced`. -/
def appendLog (db : DBState) (l : LogRec) : DBState :=
  { db with validationLogs := l :: db.validationLogs }

/-- The token-lifetime `timedelta(hours=24)` (`app.py:78`) in seconds. -/
def tokenLifetime : Int := 86400

/-- `generate_validation_token` (`app.py:454-503`).  The random
`secrets.token_urlsafe(32)` output is the `token` argument.  Inserts a row
holding only `sha256Hex token` into `auth_tokens` and caches the raw
token in memory; returns the raw token and its expiry. -/
def generateValidationToken (db : DBState) (token requestType : String)
    (now : Int) : (String × Int) × DBState :=
  let h := sha256Hex token
  let e := now + tokenLifetime
  ((token, e),
   { db with
      authTokens :=
        { tokenHash := h, tokenType := requestType, createdAt := now,
          expiresAt := e, isActive := true, usageCount := 0,
          lastUsedAt := none } :: db.authTokens,
      activeTokens :=
        { token := token, expiresAt := e, tokenType := requestType,
          createdAt := now } ::
          db.activeTokens.filter (fun c => !(c.token == token)) })

/-- The store half of `validate_token` (`app.py:519-572`): look up the
digest among active rows; on a non-expired hit, bump `usage_count`, stamp
`last_used_at`, refresh the cache entry, and return true. -/
def validateTokenDb (db : DBState) (token : String) (now : Int) :
    Bool × DBState :=
  let h := sha256Hex token
  match db.authTokens.find? (fun r => r.tokenHash == h && r.isActive) with
  | some r =>
    if now < r.expiresAt && r.isActive then
      (true,
       { db with
          authTokens := db.authTokens.map (fun q =>
            if q.tokenHash == h then
              { q with usageCount := q.usageCount + 1, lastUsedAt := some now }
            else q),
          activeTokens :=
            { token := token, expiresAt := r.expiresAt,
              tokenType := r.tokenType, createdAt := now } ::
              db.activeTokens.filter (fun c => !(c.token == token)) })
    else (false, db)
  | none => (false, db)

/-- `validate_token` (`app.py:505-576`): a non-expired in-memory cache
hit returns true immediately (no store access); an expired cache entry is
deleted and the store is consulted; a cache miss consults the store. -/
def validateToken (db : DBState) (token : String) (now : Int) :
    Bool × DBState :=
  match db.activeTokens.find? (fun e => e.token == token) with
  | some e =>
    if now < e.expiresAt then (true, db)
    else
      validateTokenDb
        { db with
            activeTokens := db.activeTokens.filter (fun c => !(c.token == token)) }
        token now
  | none => validateTokenDb db token now

/-- `cleanup_expired_tokens` (`app.py:578-614`): drop expired cache
entries and deactivate expired active store rows; returns the state and
the deactivated-row count. -/
def cleanupExpiredTokens (db : DBState) (now : Int) : DBState × Nat :=
  ({ db with
      activeTokens := db.activeTokens.filter (fun e => now < e.expiresAt),
      authTokens := db.authTokens.map (fun r =>
        if r.expiresAt < now && r.isActive then { r with isActive := false }
        else r) },
   (db.authTokens.filter (fun r => r.expiresAt < now && r.isActive)).length)

/-- The gate `if force_online or validation_required` of
`validate_serial_enhanced` (`app.py:781`).  Registration
(`register_serial_enhanced`) always sets the two flags to the same value,
so for rows this program created the gate is exactly `force_online`. -/
def requiresToken (s : SerialRec) : Bool := s.forceOnline || s.validationRequired

/-- Steps 4-7 of `validate_serial_enhanced` (`app.py:812-905`): machine
binding, active state, expiry, then the success update (`check_count`/
`validation_count` increment, `last_validation_token` set to the RAW
supplied token, `last_client_ip`, `last_check_time`) and the log row. -/
def checkBinding (db : DBState) (s : SerialRec) (h mid : String)
    (tok : Option String) (ip : String) (now : Int) :
    ValidateOutcome × DBState :=
  if s.machineId ≠ mid then
    (.machineMismatch s.forceOnline,
     appendLog db (mkLog h mid now "MACHINE_MISMATCH" ip tok
       s.forceOnline s.serverValidationOnly (some "機器ID不匹配")))
  else if s.isActive = false then
    (.revoked s.forceOnline,
     appendLog db (mkLog h mid now "REVOKED" ip tok
       s.forceOnline s.serverValidationOnly (some "序號已停用")))
  else if now > s.expiryDate then
    (.expired s.forceOnline,
     appendLog db (mkLog h mid now "EXPIRED" ip tok
       s.forceOnline s.serverValidationOnly (some "序號已過期")))
  else
    let newCheck := s.checkCount + 1
    let newVal := s.validationCount + 1
    let db1 :=
      { db with serials := db.serials.map (fun r =>
          if r.serialHash == h then
            { r with lastCheckTime := some now, checkCount := newCheck,
                     validationCount := newVal, lastValidationToken := tok,
                     lastClientIp := some ip, updatedAt := now }
          else r) }
    (.valid s.tier s.userName s.expiryDate
       (max 0 ((s.expiryDate - now).fdiv 86400)) newCheck newVal
       s.forceOnline s.validationRequired,
     appendLog db1 (mkLog h mid now "VALID" ip tok
       s.forceOnline s.serverValidationOnly none))

/-- Step 3 of `validate_serial_enhanced` (`app.py:780-810`): when the
serial demands online mode, a missing token denies with `TOKEN_REQUIRED`
(logging token `None`), a failing `validate_token` denies with
`INVALID_TOKEN`; the token check mutates the token store/cache even when
a later step denies, because `validate_token` commits on its own
connection. -/
def checkToken (db : DBState) (s : SerialRec) (h mid : String)
    (tok : Option String) (ip : String) (now : Int) :
    ValidateOutcome × DBState :=
  if requiresToken s then
    match tok with
    | none =>
      (.tokenRequired,
       appendLog db (mkLog h mid now "TOKEN_REQUIRED" ip none true true
         (some "需要驗證Token")))
    | some t =>
      let r := validateToken db t now
      if r.1 then checkBinding r.2 s h mid tok ip now
      else
        (.invalidToken,
         appendLog r.2 (mkLog h mid now "INVALID_TOKEN" ip (some t) true true
           (some "無效的驗證Token")))
  else checkBinding db s h mid tok ip now

/-- `validate_serial_enhanced` (`app.py:701-913`): blacklist check on the
supplied machine id first, then serial lookup by `sha256Hex serial_key`,
then the token / binding / active / expiry chain.  `current_time` is the
single instant `now` (the code calls `datetime.now()` once per step
within the same request; the sub-second drift is folded into one
instant). -/
def validateSerialEnhanced (db : DBState) (serialKey mid : String)
    (tok : Option String) (ip : String) (now : Int) :
    ValidateOutcome × DBState :=
  let h := sha256Hex serialKey
  match db.blacklist.find? (fun b => b.machineId == mid && b.isActive) with
  | some b =>
    (.blacklisted b.reason b.severityLevel,
     appendLog db (mkLog h mid now "BLACKLISTED" ip tok true true
       (some ("黑名單: " ++ b.reason))))
  | none =>
    match db.serials.find? (fun s => s.serialHash == h) with
    | none =>
      (.notFound,
       appendLog db (mkLog h mid now "NOT_FOUND" ip tok false false
         (some "序號不存在")))
    | some s => checkToken db s h mid tok ip now

/-- Abbreviation for the verdict of a validation call. -/
def vOutcome (db : DBState) (serialKey mid : String) (tok : Option String)
    (ip : String) (now : Int) : ValidateOutcome :=
  (validateSerialEnhanced db serialKey mid tok ip now).1

/-- Abbreviation for the post-state of a validation call. -/
def vState (db : DBState) (serialKey mid : String) (tok : Option String)
    (ip : String) (now : Int) : DBState :=
  (validateSerialEnhanced db serialKey mid tok ip now).2

/-- The `result` column of the most recently inserted validation log. -/
def headResult (db : DBState) : Option String :=
  db.validationLogs.head?.map (fun l => l.result)

/-- The fresh row inserted by `register_serial_enhanced`
(`app.py:634-699`) when no prior row exists: columns absent from the
INSERT column list take their schema defaults (`is_active` TRUE,
`check_count` 0, revocation fields NULL). -/
def mkFreshSerial (serialKey mid userName tier : String) (days : Int)
    (forceOnline : Bool) (now : Int) : SerialRec :=
  { serialKey := serialKey, serialHash := sha256Hex serialKey,
    machineId := mid, userName := userName, tier := tier,
    createdDate := now, expiryDate := now + days * 86400,
    isActive := true, lastCheckTime := none, checkCount := 0,
    revokedDate := none, revokedReason := none,
    forceOnline := forceOnline, validationRequired := forceOnline,
    offlineDisabled := forceOnline, serverValidationOnly := forceOnline,
    forceOnlineMarker := if forceOnline then some "FORCE_ONLINE_V6" else none,
    lastValidationToken := none, validationCount := 0, lastClientIp := none,
    updatedAt := now }

/-- The PostgreSQL branch of `register_serial_enhanced`
(`app.py:650-674`): `INSERT ... ON CONFLICT (serial_key) DO UPDATE`
overwrites machine binding, user, tier, expiry and the force-online
columns of the existing row, leaving `created_date`, `is_active`,
`check_count`, `last_check_time` and the revocation columns untouched. -/
def registerSerialEnhancedPg (db : DBState) (serialKey mid userName tier : String)
    (days : Int) (forceOnline : Bool) (now : Int) : Bool × DBState :=
  if db.serials.any (fun r => r.serialKey == serialKey) then
    (true,
     { db with serials := db.serials.map (fun r =>
        if r.serialKey == serialKey then
          { r with machineId := mid, userName := userName, tier := tier,
                   expiryDate := now + days * 86400,
                   forceOnline := forceOnline,
                   validationRequired := forceOnline,
                   offlineDisabled := forceOnline,
                   serverValidationOnly := forceOnline,
                   forceOnlineMarker :=
                     if forceOnline then some "FORCE_ONLINE_V6" else none,
                   updatedAt := now }
        else r) })
  else
    (true,
     { db with serials :=
        db.serials ++ [mkFreshSerial serialKey mid userName tier days forceOnline now] })

/-- The SQLite branch of `register_serial_enhanced` (`app.py:675-689`):
`INSERT OR REPLACE` deletes any row conflicting on the unique
`serial_key` / `serial_hash` columns and inserts a whole fresh row, so
columns absent from the column list fall back to schema defaults. -/
def registerSerialEnhancedSqlite (db : DBState)
    (serialKey mid userName tier : String) (days : Int) (forceOnline : Bool)
    (now : Int) : Bool × DBState :=
  (true,
   { db with serials :=
      db.serials.filter (fun r =>
        !(r.serialKey == serialKey) && !(r.serialHash == sha256Hex serialKey))
      ++ [mkFreshSerial serialKey mid userName tier days forceOnline now] })

/-- Backend dispatch of `register_serial_enhanced` on
`self.use_postgresql`. -/
def registerSerialEnhanced (usePg : Bool) (db : DBState)
    (serialKey mid userName tier : String) (days : Int) (forceOnline : Bool)
    (now : Int) : Bool × DBState :=
  if usePg then registerSerialEnhancedPg db serialKey mid userName tier days forceOnline now
  else registerSerialEnhancedSqlite db serialKey mid userName tier days forceOnline now

/-- The admin key constant `self.admin_key` (`app.py:73`). -/
def adminKey : String := "boss_admin_2025_enhanced_key_v6"

/-- Result of the `/api/register` route (`register_serial`,
`app.py:1358-1391`): 403 on a wrong admin key, 400 on a missing (falsy)
`serial_key` or `machine_id`, otherwise the success flag of
`register_serial` (which is `register_serial_enhanced` with
`force_online=False`, `app.py:1030-1035`). -/
inductive RegisterRouteResult where
  | forbidden
  | missingParams
  | ok (success : Bool)
  deriving DecidableEq

/-- The `/api/register` route body (`app.py:1358-1391`): note that the
`days` argument flows into registration unchecked. -/
def registerRoute (usePg : Bool) (db : DBState)
    (suppliedAdminKey serialKey mid tier userName : String) (days : Int)
    (now : Int) : RegisterRouteResult × DBState :=
  if suppliedAdminKey ≠ adminKey then (.forbidden, db)
  else if serialKey = "" ∨ mid = "" then (.missingParams, db)
  else
    let r := registerSerialEnhanced usePg db serialKey mid userName tier days false now
    (.ok r.1, r.2)

/-- `revoke_serial` (`app.py:1393-1451`): deactivate the row with the
serial hash, stamping revocation date and reason; success iff a row
matched. -/
def revokeSerial (db : DBState) (serialKey reason : String) (now : Int) :
    Bool × DBState :=
  let h := sha256Hex serialKey
  (db.serials.any (fun r => r.serialHash == h),
   { db with serials := db.serials.map (fun r =>
      if r.serialHash == h then
        { r with isActive := false, revokedDate := some now,
                 revokedReason := some reason, updatedAt := now }
      else r) })

/-- The cascade of `add_blacklist` (`app.py:1549-1567`), identical on
both backends: deactivate every currently-active serial bound to the
machine, stamping the derived revocation reason. -/
def blacklistCascade (serials : List SerialRec) (mid reason : String)
    (now : Int) : List SerialRec :=
  serials.map (fun s =>
    if s.machineId == mid && s.isActive then
      { s with isActive := false, revokedDate := some now,
               revokedReason := some ("黑名單自動停用: " ++ reason),
               updatedAt := now }
    else s)

/-- The PostgreSQL branch of `add_blacklist` (`app.py:1536-1553`): upsert
the blacklist row (`ON CONFLICT (machine_id) DO UPDATE` re-activates and
refreshes reason/severity), then cascade over the serials, in one
transaction (single commit at `app.py:1569`). -/
def addBlacklistPg (db : DBState) (mid reason : String) (severity : Int)
    (now : Int) : DBState :=
  let bl :=
    if db.blacklist.any (fun b => b.machineId == mid) then
      db.blacklist.map (fun b =>
        if b.machineId == mid then
          { b with reason := reason, severityLevel := severity,
                   isActive := true, updatedAt := now }
        else b)
    else
      db.blacklist ++
        [{ machineId := mid, reason := reason, createdDate := now,
           severityLevel := severity, isActive := true, updatedAt := now }]
  { db with blacklist := bl,
            serials := blacklistCascade db.serials mid reason now }

/-- The SQLite branch of `add_blacklist` (`app.py:1554-1567`):
`INSERT OR REPLACE` of the blacklist row, then the same cascade, in one
transaction. -/
def addBlacklistSqlite (db : DBState) (mid reason : String) (severity : Int)
    (now : Int) : DBState :=
  { db with
      blacklist :=
        db.blacklist.filter (fun b => !(b.machineId == mid)) ++
          [{ machineId := mid, reason := reason, createdDate := now,
             severityLevel := severity, isActive := true, updatedAt := now }],
      serials := blacklistCascade db.serials mid reason now }

/-- `remove_blacklist` (`app.py:1586-1638`): deactivate the blacklist row
for the machine (no `is_active` filter in the WHERE clause); success iff
a row matched.  Serials are not touched. -/
def removeBlacklist (db : DBState) (mid : String) (now : Int) :
    Bool × DBState :=
  (db.blacklist.any (fun b => b.machineId == mid),
   { db with blacklist := db.blacklist.map (fun b =>
      if b.machineId == mid then { b with isActive := false, updatedAt := now }
      else b) })

/-- A concrete registered serial row: key `"K"`, bound to machine `"M1"`,
active, offline (no force-online), expiring at time 1000. -/
def baseSerial : SerialRec :=
  { serialKey := "K", serialHash := sha256Hex "K", machineId := "M1",
    userName := "u", tier := "pro", createdDate := 0, expiryDate := 1000,
    isActive := true, lastCheckTime := none, checkCount := 0,
    revokedDate := none, revokedReason := none,
    forceOnline := false, validationRequired := false, offlineDisabled := false,
    serverValidationOnly := false, forceOnlineMarker := none,
    lastValidationToken := none, validationCount := 0, lastClientIp := none,
    updatedAt := 0 }

/-- A concrete active blacklist row banning machine `"M2"`. -/
def blM2 : BlacklistRec :=
  { machineId := "M2", reason := "fraud", createdDate := 0,
    severityLevel := 1, isActive := true, updatedAt := 0 }

/-- Store holding exactly the serial `baseSerial`. -/
def dbOneSerial : DBState := { emptyDB with serials := [baseSerial] }

/-- Store holding `baseSerial` (bound to `"M1"`) and a blacklist entry
for the different machine `"M2"`. -/
def dbSerialAndBlacklist : DBState :=
  { emptyDB with serials := [baseSerial], blacklist := [blM2] }

/-- A reachable store for the re-registration scenario: register `"K"`
at time 0 (both backends agree on a fresh insert), validate once at
time 5 (bumping `check_count` to 1), then revoke at time 10. -/
def dbRevoked : DBState :=
  (revokeSerial
    (vState (registerSerialEnhancedSqlite emptyDB "K" "M1" "u" "pro" 30 false 0).2
      "K" "M1" none "ip" 5)
    "K" "r0" 10).2

/-- Store right after issuing token `"T"` at time 0 into the empty store. -/
def dbTok : DBState := (generateValidationToken emptyDB "T" "validation" 0).2

/-- Same store with the in-memory cache dropped (a process restart):
the `auth_tokens` row for `"T"` is still present and active. -/
def dbTokStoreOnly : DBState := { dbTok with activeTokens := [] }

/-- A second serial row bound to a different machine `"M9"`: used to
check the blacklist cascade leaves foreign serials untouched. -/
def otherSerial : SerialRec :=
  { baseSerial with
    serialKey := "K9", serialHash := sha256Hex "K9", machineId := "M9" }

/-- Store with one serial on machine `"M1"` and one on `"M9"`. -/
def dbTwoSerials : DBState :=
  { emptyDB with serials := [baseSerial, otherSerial] }

theorem validateTokenDb_frame (db : DBState) (t : String) (now : Int) :
    (validateTokenDb db t now).2.serials = db.serials ∧
    (validateTokenDb db t now).2.blacklist = db.blacklist ∧
    (validateTokenDb db t now).2.validationLogs = db.validationLogs := by
  simp only [validateTokenDb]
  split
  · split <;> exact ⟨rfl, rfl, rfl⟩
  · exact ⟨rfl, rfl, rfl⟩

theorem validateToken_frame (db : DBState) (t : String) (now : Int) :
    (validateToken db t now).2.serials = db.serials ∧
    (validateToken db t now).2.blacklist = db.blacklist ∧
    (validateToken db t now).2.validationLogs = db.validationLogs := by
  simp only [validateToken]
  split
  · split
    · exact ⟨rfl, rfl, rfl⟩
    · exact validateTokenDb_frame _ t now
  · exact validateTokenDb_frame db t now

theorem validateToken_hash_expiry (db : DBState) (t : String) (now : Int) :
    (validateToken db t now).2.authTokens.map (fun r => (r.tokenHash, r.expiresAt))
      = db.authTokens.map (fun r => (r.tokenHash, r.expiresAt)) := by
  have hdb : ∀ d : DBState,
      (validateTokenDb d t now).2.authTokens.map (fun r => (r.tokenHash, r.expiresAt))
        = d.authTokens.map (fun r => (r.tokenHash, r.expiresAt)) := by
    intro d
    simp only [validateTokenDb]
    split
    · split
      · simp only [List.map_map]
        apply List.map_congr_left
        intro q _
        by_cases hq : q.tokenHash == sha256Hex t <;> simp [Function.comp, hq]
      · rfl
    · rfl
  unfold validateToken
  split
  · split
    · rfl
    · exact hdb _
  · exact hdb db

theorem validate_blacklisted_eq (db : DBState) (key mid : String)
    (tok : Option String) (ip : String) (now : Int) (b : BlacklistRec)
    (hb : db.blacklist.find? (fun e => e.machineId == mid && e.isActive) = some b) :
    validateSerialEnhanced db key mid tok ip now =
      (.blacklisted b.reason b.severityLevel,
       appendLog db (mkLog (sha256Hex key) mid now "BLACKLISTED" ip tok true true
         (some ("黑名單: " ++ b.reason)))) := by
  simp only [validateSerialEnhanced, hb]

theorem validate_notFound_eq (db : DBState) (key mid : String)
    (tok : Option String) (ip : String) (now : Int)
    (hb : db.blacklist.find? (fun e => e.machineId == mid && e.isActive) = none)
    (hs : db.serials.find? (fun s => s.serialHash == sha256Hex key) = none) :
    validateSerialEnhanced db key mid tok ip now =
      (.notFound,
       appendLog db (mkLog (sha256Hex key) mid now "NOT_FOUND" ip tok false false
         (some "序號不存在"))) := by
  simp only [validateSerialEnhanced, hb, hs]

theorem validate_found_eq (db : DBState) (key mid : String)
    (tok : Option String) (ip : String) (now : Int) (s : SerialRec)
    (hb : db.blacklist.find? (fun e => e.machineId == mid && e.isActive) = none)
    (hs : db.serials.find? (fun r => r.serialHash == sha256Hex key) = some s) :
    validateSerialEnhanced db key mid tok ip now =
      checkToken db s (sha256Hex key) mid tok ip now := by
  simp only [validateSerialEnhanced, hb, hs]

theorem checkToken_gate (db : DBState) (s : SerialRec) (h mid : String)
    (tok : Option String) (ip : String) (now : Int)
    (hg : requiresToken s = false ∨
      ∃ t, tok = some t ∧ (validateToken db t now).1 = true) :
    ∃ db1, checkToken db s h mid tok ip now = checkBinding db1 s h mid tok ip now
      ∧ db1.serials = db.serials ∧ db1.blacklist = db.blacklist
      ∧ db1.validationLogs = db.validationLogs := by
  rcases hg with hg | ⟨t, rfl, hv⟩
  · exact ⟨db, by simp [checkToken, hg], rfl, rfl, rfl⟩
  · cases hrt : requiresToken s with
    | false => exact ⟨db, by simp [checkToken, hrt], rfl, rfl, rfl⟩
    | true =>
      refine ⟨(validateToken db t now).2, by simp [checkToken, hrt, hv],
        (validateToken_frame db t now).1, (validateToken_frame db t now).2.1,
        (validateToken_frame db t now).2.2⟩

theorem checkBinding_mismatch (db : DBState) (s : SerialRec) (h mid : String)
    (tok : Option String) (ip : String) (now : Int) (hm : s.machineId ≠ mid) :
    checkBinding db s h mid tok ip now =
      (.machineMismatch s.forceOnline,
       appendLog db (mkLog h mid now "MACHINE_MISMATCH" ip tok
         s.forceOnline s.serverValidationOnly (some "機器ID不匹配"))) := by
  simp [checkBinding, hm]

theorem checkBinding_revoked (db : DBState) (s : SerialRec) (h mid : String)
    (tok : Option String) (ip : String) (now : Int) (hm : s.machineId = mid)
    (ha : s.isActive = false) :
    checkBinding db s h mid tok ip now =
      (.revoked s.forceOnline,
       appendLog db (mkLog h mid now "REVOKED" ip tok
         s.forceOnline s.serverValidationOnly (some "序號已停用"))) := by
  simp [checkBinding, hm, ha]

theorem checkBinding_expired (db : DBState) (s : SerialRec) (h mid : String)
    (tok : Option String) (ip : String) (now : Int) (hm : s.machineId = mid)
    (ha : s.isActive = true) (he : now > s.expiryDate) :
    checkBinding db s h mid tok ip now =
      (.expired s.forceOnline,
       appendLog db (mkLog h mid now "EXPIRED" ip tok
         s.forceOnline s.serverValidationOnly (some "序號已過期"))) := by
  simp [checkBinding, hm, ha, he]

theorem checkBinding_success (db : DBState) (s : SerialRec) (h mid : String)
    (tok : Option String) (ip : String) (now : Int) (hm : s.machineId = mid)
    (ha : s.isActive = true) (he : ¬ now > s.expiryDate) :
    checkBinding db s h mid tok ip now =
      (.valid s.tier s.userName s.expiryDate
         (max 0 ((s.expiryDate - now).fdiv 86400)) (s.checkCount + 1)
         (s.validationCount + 1) s.forceOnline s.validationRequired,
       appendLog
         { db with serials := db.serials.map (fun r =>
            if r.serialHash == h then
              { r with lastCheckTime := some now, checkCount := s.checkCount + 1,
                       validationCount := s.validationCount + 1,
                       lastValidationToken := tok, lastClientIp := some ip,
                       updatedAt := now }
            else r) }
         (mkLog h mid now "VALID" ip tok s.forceOnline s.serverValidationOnly
           none)) := by
  simp [checkBinding, hm, ha, he]

theorem checkBinding_logs_len (db : DBState) (s : SerialRec) (h mid : String)
    (tok : Option String) (ip : String) (now : Int) :
    (checkBinding db s h mid tok ip now).2.validationLogs.length
      = db.validationLogs.length + 1 := by
  simp only [checkBinding]
  split
  · simp [appendLog]
  · split
    · simp [appendLog]
    · split <;> simp [appendLog]

theorem checkToken_logs_len (db : DBState) (s : SerialRec) (h mid : String)
    (tok : Option String) (ip : String) (now : Int) :
    (checkToken db s h mid tok ip now).2.validationLogs.length
      = db.validationLogs.length + 1 := by
  simp only [checkToken]
  split
  · cases tok with
    | none => simp [appendLog]
    | some t =>
      simp only
      split
      · rw [checkBinding_logs_len, (validateToken_frame db t now).2.2]
      · simp [appendLog, (validateToken_frame db t now).2.2]
  · exact checkBinding_logs_len db s h mid tok ip now

theorem validate_logs_len (db : DBState) (key mid : String)
    (tok : Option String) (ip : String) (now : Int) :
    (vState db key mid tok ip now).validationLogs.length
      = db.validationLogs.length + 1 := by
  unfold vState
  cases hb : db.blacklist.find? (fun e => e.machineId == mid && e.isActive) with
  | some b =>
    rw [validate_blacklisted_eq db key mid tok ip now b hb]
    simp [appendLog]
  | none =>
    cases hs : db.serials.find? (fun r => r.serialHash == sha256Hex key) with
    | none =>
      rw [validate_notFound_eq db key mid tok ip now hb hs]
      simp [appendLog]
    | some s =>
      rw [validate_found_eq db key mid tok ip now s hb hs]
      exact checkToken_logs_len db s (sha256Hex key) mid tok ip now

/-- C1: the checks of `Validate(serial_key, machine_id, token?, client_ip)`
run in the fixed order (1) blacklist on `machine_id`, (2) serial lookup by
`hash(serial_key)`, (3) online-mode token check when the serial has
`force_online = true`, (4) machine binding, (5) active state, (6) expiry,
(7) success; each check is a terminal short-circuit that denies with its
own result code and writes its own log row, and every call writes exactly
one log row.  In particular the blacklist check precedes the serial
lookup: a blacklisted machine gets `Blacklisted` for every store state,
whether or not the serial exists. -/
theorem c1_validate_fixed_order (db : DBState) (key mid : String)
    (tok : Option String) (ip : String) (now : Int) :
    (∀ b, db.blacklist.find? (fun e => e.machineId == mid && e.isActive) = some b →
      vOutcome db key mid tok ip now = .blacklisted b.reason b.severityLevel
      ∧ headResult (vState db key mid tok ip now) = some "BLACKLISTED"
      ∧ (vState db key mid tok ip now).serials = db.serials)
    ∧ (db.blacklist.find? (fun e => e.machineId == mid && e.isActive) = none →
      (db.serials.find? (fun r => r.serialHash == sha256Hex key) = none →
        vOutcome db key mid tok ip now = .notFound
        ∧ headResult (vState db key mid tok ip now) = some "NOT_FOUND")
      ∧ (∀ s, db.serials.find? (fun r => r.serialHash == sha256Hex key) = some s →
        (s.forceOnline = true → tok = none →
          vOutcome db key mid tok ip now = .tokenRequired
          ∧ headResult (vState db key mid tok ip now) = some "TOKEN_REQUIRED")
        ∧ (∀ t, tok = some t → requiresToken s = true →
            (validateToken db t now).1 = false →
          vOutcome db key mid tok ip now = .invalidToken
          ∧ headResult (vState db key mid tok ip now) = some "INVALID_TOKEN")
        ∧ ((requiresToken s = false ∨
              ∃ t, tok = some t ∧ (validateToken db t now).1 = true) →
          (s.machineId ≠ mid →
            vOutcome db key mid tok ip now = .machineMismatch s.forceOnline
            ∧ headResult (vState db key mid tok ip now) = some "MACHINE_MISMATCH")
          ∧ (s.machineId = mid → s.isActive = false →
            vOutcome db key mid tok ip now = .revoked s.forceOnline
            ∧ headResult (vState db key mid tok ip now) = some "REVOKED")
          ∧ (s.machineId = mid → s.isActive = true → now > s.expiryDate →
            vOutcome db key mid tok ip now = .expired s.forceOnline
            ∧ headResult (vState db key mid tok ip now) = some "EXPIRED")
          ∧ (s.machineId = mid → s.isActive = true → ¬ now > s.expiryDate →
            vOutcome db key mid tok ip now =
              .valid s.tier s.userName s.expiryDate
                (max 0 ((s.expiryDate - now).fdiv 86400)) (s.checkCount + 1)
                (s.validationCount + 1) s.forceOnline s.validationRequired
            ∧ headResult (vState db key mid tok ip now) = some "VALID"))))
    ∧ (vState db key mid tok ip now).validationLogs.length
        = db.validationLogs.length + 1 := by
  refine ⟨?_, ?_, validate_logs_len db key mid tok ip now⟩
  · intro b hb
    have hv := validate_blacklisted_eq db key mid tok ip now b hb
    simp [vOutcome, vState, headResult, appendLog, mkLog, hv]
  · intro hb
    constructor
    · intro hs
      have hv := validate_notFound_eq db key mid tok ip now hb hs
      simp [vOutcome, vState, headResult, appendLog, mkLog, hv]
    · intro s hs
      have hv := validate_found_eq db key mid tok ip now s hb hs
      refine ⟨?_, ?_, ?_⟩
      · intro hfo htok
        subst htok
        have hrt : requiresToken s = true := by simp [requiresToken, hfo]
        simp [vOutcome, vState, hv, checkToken, hrt, headResult, appendLog, mkLog]
      · intro t htok hrt hvt
        subst htok
        simp [vOutcome, vState, hv, checkToken, hrt, hvt, headResult, appendLog,
          mkLog]
      · intro hg
        obtain ⟨db1, heq, _, _, _⟩ :=
          checkToken_gate db s (sha256Hex key) mid tok ip now hg
        refine ⟨?_, ?_, ?_, ?_⟩
        · intro hm
          have hcb := checkBinding_mismatch db1 s (sha256Hex key) mid tok ip now hm
          simp [vOutcome, vState, hv, heq, hcb, headResult, appendLog, mkLog]
        · intro hm ha
          have hcb := checkBinding_revoked db1 s (sha256Hex key) mid tok ip now hm ha
          simp [vOutcome, vState, hv, heq, hcb, headResult, appendLog, mkLog]
        · intro hm ha he
          have hcb := checkBinding_expired db1 s (sha256Hex key) mid tok ip now hm ha he
          simp [vOutcome, vState, hv, heq, hcb, headResult, appendLog, mkLog]
        · intro hm ha he
          have hcb := checkBinding_success db1 s (sha256Hex key) mid tok ip now hm ha he
          simp [vOutcome, vState, hv, heq, hcb, headResult, appendLog, mkLog]

theorem checkBinding_cases (db : DBState) (s : SerialRec) (h mid : String)
    (tok : Option String) (ip : String) (now : Int) :
    ((checkBinding db s h mid tok ip now).1.isValid = false
      ∧ (checkBinding db s h mid tok ip now).2.serials = db.serials)
    ∨ (s.machineId = mid ∧ s.isActive = true ∧ ¬ now > s.expiryDate
      ∧ checkBinding db s h mid tok ip now =
          (.valid s.tier s.userName s.expiryDate
             (max 0 ((s.expiryDate - now).fdiv 86400)) (s.checkCount + 1)
             (s.validationCount + 1) s.forceOnline s.validationRequired,
           appendLog
             { db with serials := db.serials.map (fun r =>
                if r.serialHash == h then
                  { r with lastCheckTime := some now,
                           checkCount := s.checkCount + 1,
                           validationCount := s.validationCount + 1,
                           lastValidationToken := tok, lastClientIp := some ip,
                           updatedAt := now }
                else r) }
             (mkLog h mid now "VALID" ip tok s.forceOnline
               s.serverValidationOnly none))) := by
  rcases eq_or_ne s.machineId mid with hm | hm
  · cases ha : s.isActive with
    | false =>
      left
      rw [checkBinding_revoked db s h mid tok ip now hm ha]
      simp [ValidateOutcome.isValid, appendLog]
    | true =>
      by_cases he : now > s.expiryDate
      · left
        rw [checkBinding_expired db s h mid tok ip now hm ha he]
        simp [ValidateOutcome.isValid, appendLog]
      · exact Or.inr ⟨hm, rfl, he, checkBinding_success db s h mid tok ip now hm ha he⟩
  · left
    rw [checkBinding_mismatch db s h mid tok ip now hm]
    simp [ValidateOutcome.isValid, appendLog]

theorem validate_cases (db : DBState) (key mid : String) (tok : Option String)
    (ip : String) (now : Int) :
    ((vOutcome db key mid tok ip now).isValid = false
      ∧ (vState db key mid tok ip now).serials = db.serials)
    ∨ (∃ s, db.serials.find? (fun r => r.serialHash == sha256Hex key) = some s
        ∧ s.machineId = mid ∧ s.isActive = true ∧ ¬ now > s.expiryDate
        ∧ vOutcome db key mid tok ip now =
            .valid s.tier s.userName s.expiryDate
              (max 0 ((s.expiryDate - now).fdiv 86400)) (s.checkCount + 1)
              (s.validationCount + 1) s.forceOnline s.validationRequired
        ∧ (vState db key mid tok ip now).serials = db.serials.map (fun r =>
            if r.serialHash == sha256Hex key then
              { r with lastCheckTime := some now, checkCount := s.checkCount + 1,
                       validationCount := s.validationCount + 1,
                       lastValidationToken := tok, lastClientIp := some ip,
                       updatedAt := now }
            else r)
        ∧ (vState db key mid tok ip now).validationLogs.head?
            = some (mkLog (sha256Hex key) mid now "VALID" ip tok s.forceOnline
                s.serverValidationOnly none)) := by
  cases hb : db.blacklist.find? (fun e => e.machineId == mid && e.isActive) with
  | some b =>
    left
    have hv := validate_blacklisted_eq db key mid tok ip now b hb
    simp [vOutcome, vState, hv, ValidateOutcome.isValid, appendLog]
  | none =>
    cases hs : db.serials.find? (fun r => r.serialHash == sha256Hex key) with
    | none =>
      left
      have hv := validate_notFound_eq db key mid tok ip now hb hs
      simp [vOutcome, vState, hv, ValidateOutcome.isValid, appendLog]
    | some s =>
      have hv := validate_found_eq db key mid tok ip now s hb hs
      cases hrt : requiresToken s with
      | false =>
        have heq : checkToken db s (sha256Hex key) mid tok ip now
            = checkBinding db s (sha256Hex key) mid tok ip now := by
          simp [checkToken, hrt]
        rcases checkBinding_cases db s (sha256Hex key) mid tok ip now with
          ⟨h1, h2⟩ | ⟨hm, ha, he, hcb⟩
        · left
          simp only [vOutcome, vState, hv, heq]
          exact ⟨h1, h2⟩
        · right
          exact ⟨s, rfl, hm, ha, he, by
            simp [vOutcome, hv, heq, hcb], by
            simp [vState, hv, heq, hcb, appendLog], by
            simp [vState, hv, heq, hcb, appendLog]⟩
      | true =>
        cases tok with
        | none =>
          left
          have heq : checkToken db s (sha256Hex key) mid none ip now
              = (.tokenRequired,
                 appendLog db (mkLog (sha256Hex key) mid now "TOKEN_REQUIRED" ip
                   none true true (some "需要驗證Token"))) := by
            simp [checkToken, hrt]
          simp [vOutcome, vState, hv, heq, ValidateOutcome.isValid, appendLog]
        | some t =>
          cases hvt : (validateToken db t now).1 with
          | false =>
            left
            have heq : checkToken db s (sha256Hex key) mid (some t) ip now
                = (.invalidToken,
                   appendLog (validateToken db t now).2
                     (mkLog (sha256Hex key) mid now "INVALID_TOKEN" ip (some t)
                       true true (some "無效的驗證Token"))) := by
              simp [checkToken, hrt, hvt]
            simp [vOutcome, vState, hv, heq, ValidateOutcome.isValid, appendLog,
              (validateToken_frame db t now).1]
          | true =>
            have heq : checkToken db s (sha256Hex key) mid (some t) ip now
                = checkBinding (validateToken db t now).2 s (sha256Hex key) mid
                    (some t) ip now := by
              simp [checkToken, hrt, hvt]
            rcases checkBinding_cases (validateToken db t now).2 s (sha256Hex key)
                mid (some t) ip now with ⟨h1, h2⟩ | ⟨hm, ha, he, hcb⟩
            · left
              constructor
              · simp only [vOutcome, hv, heq]
                exact h1
              · simp only [vState, hv, heq]
                exact h2.trans (validateToken_frame db t now).1
            · right
              exact ⟨s, rfl, hm, ha, he, by
                simp [vOutcome, hv, heq, hcb], by
                simp [vState, hv, heq, hcb, appendLog,
                  (validateToken_frame db t now).1], by
                simp [vState, hv, heq, hcb, appendLog]⟩

/-- Witness for C1: on a store where serial `"K"` is bound to `"M1"` and
machine `"M2"` is blacklisted, validating from `"M2"` is denied
`Blacklisted` even though the serial exists; on a store with no blacklist
entry, the same serial validates `Valid` from its own machine. -/
theorem c1_validate_fixed_order_witness :
    vOutcome dbSerialAndBlacklist "K" "M2" none "ip" 5
      = .blacklisted "fraud" 1
    ∧ vOutcome dbOneSerial "K" "M1" none "ip" 5
      = .valid "pro" "u" 1000 0 1 1 false false := by
  constructor
  · exact ((c1_validate_fixed_order dbSerialAndBlacklist "K" "M2" none "ip" 5).1
      blM2 (by decide)).1
  · exact (((((c1_validate_fixed_order dbOneSerial "K" "M1" none "ip" 5).2.1
      (by decide)).2 baseSerial (by decide)).2.2 (Or.inl (by decide))).2.2.2
      (by decide) (by decide) (by decide)).1

/-- C2 counterexample: the claim "every durable record derived from a
token contains only the SHA-256 digest, never the raw token string" is
false for `serials` and `validation_logs`.  Validating serial `"K"` from
its own machine with token `"T"` supplied succeeds and writes the RAW
string `"T"` both into the serial row's `last_validation_token` column
(the `UPDATE serials` at `app.py:863-878`) and into the log row's
`validation_token` column (`_log_validation_enhanced`), and `"T"` is not
its own digest. -/
theorem c2_token_digest_only_counterexample :
    (vState dbOneSerial "K" "M1" (some "T") "ip" 5).serials.head?.map
        (fun r => r.lastValidationToken) = some (some "T")
    ∧ (vState dbOneSerial "K" "M1" (some "T") "ip" 5).validationLogs.head?.map
        (fun l => l.validationToken) = some (some "T")
    ∧ (vOutcome dbOneSerial "K" "M1" (some "T") "ip" 5).isValid = true
    ∧ "T" ≠ sha256Hex "T" := by
  exact ⟨by decide, by decide, by decide, by decide⟩

/-- C2 amended: the `auth_tokens` store is digest-only — every row after
an `IssueToken` call is either an old row or carries `sha256Hex token`
as its `token_hash`, and the raw token appears in no `auth_tokens`
column — but a `Validate` call that succeeds with a token supplied
stores the RAW token string in the matched serial's
`last_validation_token` column and in the appended validation log's
`validation_token` column. -/
theorem c2_amended_token_storage (db : DBState) (token rtype key mid ip : String)
    (tok : Option String) (now : Int) :
    (∀ r, r ∈ (generateValidationToken db token rtype now).2.authTokens →
      r ∈ db.authTokens ∨ r.tokenHash = sha256Hex token)
    ∧ (∀ t, tok = some t → (vOutcome db key mid tok ip now).isValid = true →
      ∃ s, db.serials.find? (fun r => r.serialHash == sha256Hex key) = some s
        ∧ (vState db key mid tok ip now).serials = db.serials.map (fun r =>
            if r.serialHash == sha256Hex key then
              { r with lastCheckTime := some now, checkCount := s.checkCount + 1,
                       validationCount := s.validationCount + 1,
                       lastValidationToken := some t, lastClientIp := some ip,
                       updatedAt := now }
            else r)
        ∧ (vState db key mid tok ip now).validationLogs.head?.map
            (fun l => l.validationToken) = some (some t)) := by
  constructor
  · intro r hr
    simp only [generateValidationToken, List.mem_cons] at hr
    rcases hr with rfl | hr
    · exact Or.inr rfl
    · exact Or.inl hr
  · intro t htok hval
    subst htok
    rcases validate_cases db key mid (some t) ip now with
      ⟨hfalse, _⟩ | ⟨s, hfind, _, _, _, _, hser, hlog⟩
    · rw [hval] at hfalse
      exact absurd hfalse (by simp)
    · exact ⟨s, hfind, hser, by rw [hlog]; simp [mkLog]⟩

/-- Witness for the amended C2: the single `auth_tokens` row after
issuing `"T"` into the empty store carries the digest of `"T"`, and the
successful validation of `dbOneSerial` with token `"T"` logs the raw
`"T"`. -/
theorem c2_amended_token_storage_witness :
    (({ tokenHash := sha256Hex "T", tokenType := "validation", createdAt := 0,
        expiresAt := 86400, isActive := true, usageCount := 0,
        lastUsedAt := none } : AuthTokenRec) ∈ emptyDB.authTokens
      ∨ ({ tokenHash := sha256Hex "T", tokenType := "validation", createdAt := 0,
           expiresAt := 86400, isActive := true, usageCount := 0,
           lastUsedAt := none } : AuthTokenRec).tokenHash = sha256Hex "T")
    ∧ (vState dbOneSerial "K" "M1" (some "T") "ip" 5).validationLogs.head?.map
        (fun l => l.validationToken) = some (some "T") := by
  constructor
  · exact (c2_amended_token_storage emptyDB "T" "validation" "K" "M1" "ip"
      (some "T") 0).1 _ (by decide)
  · obtain ⟨s, _, _, hlog⟩ := (c2_amended_token_storage dbOneSerial "T"
      "validation" "K" "M1" "ip" (some "T") 5).2 "T" rfl (by decide)
    exact hlog

/-- C5: `check_count` increases by exactly 1 on every `Validate` call
that returns `Valid` (the matched serial row is updated to the fetched
count plus one, every other row is unchanged), and the whole `serials`
table is unchanged by every `Validate` call that returns any denial. -/
theorem c5_check_count_increment (db : DBState) (key mid : String)
    (tok : Option String) (ip : String) (now : Int) :
    ((vOutcome db key mid tok ip now).isValid = false →
      (vState db key mid tok ip now).serials = db.serials)
    ∧ ((vOutcome db key mid tok ip now).isValid = true →
      ∃ s, db.serials.find? (fun r => r.serialHash == sha256Hex key) = some s
        ∧ (vState db key mid tok ip now).serials = db.serials.map (fun r =>
            if r.serialHash == sha256Hex key then
              { r with lastCheckTime := some now, checkCount := s.checkCount + 1,
                       validationCount := s.validationCount + 1,
                       lastValidationToken := tok, lastClientIp := some ip,
                       updatedAt := now }
            else r)) := by
  rcases validate_cases db key mid tok ip now with
    ⟨hfalse, hser⟩ | ⟨s, hfind, _, _, _, hout, hser, _⟩
  · refine ⟨fun _ => hser, fun hval => absurd (hfalse.symm.trans hval) (by simp)⟩
  · constructor
    · intro hval
      rw [hout] at hval
      exact absurd hval (by simp [ValidateOutcome.isValid])
    · intro _
      exact ⟨s, hfind, hser⟩

/-- Witness for C5: the denied attempt from blacklisted machine `"M2"`
leaves the serials table untouched, while the successful attempt on
`dbOneSerial` raises the single row's `check_count` from 0 to 1. -/
theorem c5_check_count_increment_witness :
    (vState dbSerialAndBlacklist "K" "M2" none "ip" 5).serials
      = dbSerialAndBlacklist.serials
    ∧ (vState dbOneSerial "K" "M1" none "ip" 5).serials.head?.map
        (fun r => r.checkCount) = some 1 := by
  constructor
  · exact (c5_check_count_increment dbSerialAndBlacklist "K" "M2" none "ip" 5).1
      (by decide)
  · obtain ⟨s, hfind, hser⟩ :=
      (c5_check_count_increment dbOneSerial "K" "M1" none "ip" 5).2 (by decide)
    have hs : s = baseSerial := by
      have h2 : some s = some baseSerial := hfind.symm.trans (by decide)
      exact Option.some.inj h2
    subst hs
    rw [hser]
    decide

theorem checkBinding_ne_notFound (db : DBState) (s : SerialRec) (h mid : String)
    (tok : Option String) (ip : String) (now : Int) :
    (checkBinding db s h mid tok ip now).1 ≠ .notFound := by
  simp only [checkBinding]
  split
  · simp
  · split
    · simp
    · split
      · simp
      · simp

theorem checkToken_ne_notFound (db : DBState) (s : SerialRec) (h mid : String)
    (tok : Option String) (ip : String) (now : Int) :
    (checkToken db s h mid tok ip now).1 ≠ .notFound := by
  simp only [checkToken]
  split
  · split
    · simp
    · split
      · exact checkBinding_ne_notFound _ _ _ _ _ _ _
      · simp
  · exact checkBinding_ne_notFound _ _ _ _ _ _ _

/-- C4 counterexample: on a store where serial `"K"` exists and is bound
to `"M1"` while machine `"M2"` is blacklisted, validating `"K"` from the
non-matching machine `"M2"` returns `Blacklisted` — not `MachineMismatch`
(though also not `NotFound`), refuting "a wrong-machine attempt on an
existing serial is always reported as the binding failure". -/
theorem c4_wrong_machine_counterexample :
    dbSerialAndBlacklist.serials.find?
        (fun r => r.serialHash == sha256Hex "K") = some baseSerial
    ∧ baseSerial.machineId ≠ "M2"
    ∧ vOutcome dbSerialAndBlacklist "K" "M2" none "ip" 5
        = .blacklisted "fraud" 1
    ∧ (vOutcome dbSerialAndBlacklist "K" "M2" none "ip" 5).isMachineMismatch
        = false
    ∧ vOutcome dbSerialAndBlacklist "K" "M2" none "ip" 5 ≠ .notFound := by
  exact ⟨by decide, by decide, by decide, by decide, by decide⟩

/-- C4 amended: a `Validate` call on an existing serial (the lookup by
`hash(serial_key)` succeeds) never returns `NotFound`; and it returns
`MachineMismatch` on a non-matching `machine_id` provided the supplied
machine is not blacklisted and the online-mode token check passes (the
serial does not demand a token, or a currently-valid token is supplied) —
otherwise the earlier check's denial (`Blacklisted`, `TokenRequired`,
`TokenInvalid`) is returned instead. -/
theorem c4_amended_wrong_machine (db : DBState) (key mid : String)
    (tok : Option String) (ip : String) (now : Int) (s : SerialRec)
    (hs : db.serials.find? (fun r => r.serialHash == sha256Hex key) = some s) :
    vOutcome db key mid tok ip now ≠ .notFound
    ∧ (db.blacklist.find? (fun e => e.machineId == mid && e.isActive) = none →
      (requiresToken s = false ∨
        ∃ t, tok = some t ∧ (validateToken db t now).1 = true) →
      s.machineId ≠ mid →
      vOutcome db key mid tok ip now = .machineMismatch s.forceOnline) := by
  constructor
  · cases hb : db.blacklist.find? (fun e => e.machineId == mid && e.isActive) with
    | some b =>
      have hv := validate_blacklisted_eq db key mid tok ip now b hb
      simp [vOutcome, hv]
    | none =>
      have hv := validate_found_eq db key mid tok ip now s hb hs
      simp only [vOutcome, hv]
      exact checkToken_ne_notFound db s (sha256Hex key) mid tok ip now
  · intro hb hg hm
    obtain ⟨db1, heq, _, _, _⟩ :=
      checkToken_gate db s (sha256Hex key) mid tok ip now hg
    have hv := validate_found_eq db key mid tok ip now s hb hs
    have hcb := checkBinding_mismatch db1 s (sha256Hex key) mid tok ip now hm
    simp [vOutcome, hv, heq, hcb]

/-- Witness for the amended C4: validating `"K"` (bound to `"M1"`) from
the unknown, non-blacklisted machine `"MX"` yields `MachineMismatch`,
never `NotFound`. -/
theorem c4_amended_wrong_machine_witness :
    vOutcome dbOneSerial "K" "MX" none "ip" 5 ≠ .notFound
    ∧ vOutcome dbOneSerial "K" "MX" none "ip" 5 = .machineMismatch false := by
  have h := c4_amended_wrong_machine dbOneSerial "K" "MX" none "ip" 5 baseSerial
    (by decide)
  exact ⟨h.1, h.2 (by decide) (Or.inl (by decide)) (by decide)⟩

/-- C3: `AddToBlacklist(machine_id, reason)` — on both backends and in
the single transaction embedded as one state transition — upserts an
active blacklist entry carrying the reason, and deactivates exactly the
serials that are bound to that machine and active at call time, stamping
`revoked_date` and a `revoked_reason` derived from the blacklist reason
(`"黑名單自動停用: " ++ reason`); all other columns of the affected rows
and all rows of other machines (or already-inactive rows) are unchanged,
and no serial row is created or deleted. -/
theorem c3_blacklist_cascade (db : DBState) (mid reason : String)
    (sev now : Int) :
    (addBlacklistPg db mid reason sev now).serials
      = db.serials.map (fun s =>
          if s.machineId == mid && s.isActive then
            { s with isActive := false, revokedDate := some now,
                     revokedReason := some ("黑名單自動停用: " ++ reason),
                     updatedAt := now }
          else s)
    ∧ (addBlacklistSqlite db mid reason sev now).serials
        = (addBlacklistPg db mid reason sev now).serials
    ∧ (addBlacklistPg db mid reason sev now).serials.length = db.serials.length
    ∧ (∀ r, r ∈ db.serials →
        (r.machineId = mid ∧ r.isActive = true →
          { r with isActive := false, revokedDate := some now,
                   revokedReason := some ("黑名單自動停用: " ++ reason),
                   updatedAt := now }
            ∈ (addBlacklistPg db mid reason sev now).serials)
        ∧ (¬(r.machineId = mid ∧ r.isActive = true) →
          r ∈ (addBlacklistPg db mid reason sev now).serials))
    ∧ (∃ b, b ∈ (addBlacklistPg db mid reason sev now).blacklist
        ∧ b.machineId = mid ∧ b.isActive = true ∧ b.reason = reason)
    ∧ (∃ b, b ∈ (addBlacklistSqlite db mid reason sev now).blacklist
        ∧ b.machineId = mid ∧ b.isActive = true ∧ b.reason = reason) := by
  refine ⟨rfl, rfl, by simp [addBlacklistPg, blacklistCascade], ?_, ?_, ?_⟩
  · intro r hr
    constructor
    · intro ⟨hm, ha⟩
      refine List.mem_map.mpr ⟨r, hr, ?_⟩
      have hc : (r.machineId == mid && r.isActive) = true := by simp [hm, ha]
      simp [hc]
    · intro hn
      refine List.mem_map.mpr ⟨r, hr, ?_⟩
      have hc : (r.machineId == mid && r.isActive) = false := by
        rcases Bool.eq_false_or_eq_true (r.machineId == mid && r.isActive) with
          hc | hc
        · exact absurd (by simpa [Bool.and_eq_true, beq_iff_eq] using hc) hn
        · exact hc
      simp [hc]
  · cases hex : db.blacklist.any (fun b => b.machineId == mid) with
    | true =>
      obtain ⟨b0, hb0mem, hb0⟩ := List.any_eq_true.mp hex
      refine ⟨{ b0 with
                reason := reason, severityLevel := sev,
                isActive := true, updatedAt := now }, ?_, ?_, rfl, rfl⟩
      · have hbl : (addBlacklistPg db mid reason sev now).blacklist
            = db.blacklist.map (fun b =>
                if b.machineId == mid then
                  { b with reason := reason, severityLevel := sev,
                           isActive := true, updatedAt := now }
                else b) := by
          simp [addBlacklistPg, hex]
        rw [hbl]
        refine List.mem_map.mpr ⟨b0, hb0mem, ?_⟩
        have hc : (b0.machineId == mid) = true := by simpa using hb0
        simp [hc]
      · have hc : (b0.machineId == mid) = true := by simpa using hb0
        simpa using hc
    | false =>
      refine ⟨{ machineId := mid, reason := reason, createdDate := now,
                severityLevel := sev, isActive := true, updatedAt := now },
              ?_, rfl, rfl, rfl⟩
      simp [addBlacklistPg, hex]
  · refine ⟨{ machineId := mid, reason := reason, createdDate := now,
              severityLevel := sev, isActive := true, updatedAt := now },
            ?_, rfl, rfl, rfl⟩
    simp [addBlacklistSqlite]

/-- Witness for C3: blacklisting `"M1"` on the two-serial store
deactivates the `"M1"`-bound row with the derived reason while the row
bound to `"M9"` stays in the table unchanged, on both backends. -/
theorem c3_blacklist_cascade_witness :
    ({ baseSerial with
       isActive := false, revokedDate := some 50,
       revokedReason := some ("黑名單自動停用: " ++ "fraud"), updatedAt := 50 }
      ∈ (addBlacklistPg dbTwoSerials "M1" "fraud" 1 50).serials)
    ∧ otherSerial ∈ (addBlacklistPg dbTwoSerials "M1" "fraud" 1 50).serials
    ∧ (addBlacklistSqlite dbTwoSerials "M1" "fraud" 1 50).serials
        = (addBlacklistPg dbTwoSerials "M1" "fraud" 1 50).serials := by
  have h := c3_blacklist_cascade dbTwoSerials "M1" "fraud" 1 50
  refine ⟨?_, ?_, h.2.1⟩
  · exact ((h.2.2.2.1 baseSerial (by decide)).1 ⟨by decide, by decide⟩)
  · exact ((h.2.2.2.1 otherSerial (by decide)).2 (by decide))

/-- C9: `RemoveFromBlacklist(machine_id)` touches only the blacklist
table: the `serials` table (hence every serial's `is_active`,
`revoked_date`, `revoked_reason`), the token store and the logs are all
unchanged; the matching blacklist rows are merely deactivated in place
and non-matching rows are untouched, with no row created or deleted. -/
theorem c9_remove_blacklist_frame (db : DBState) (mid : String) (now : Int) :
    (removeBlacklist db mid now).2.serials = db.serials
    ∧ (removeBlacklist db mid now).2.authTokens = db.authTokens
    ∧ (removeBlacklist db mid now).2.activeTokens = db.activeTokens
    ∧ (removeBlacklist db mid now).2.validationLogs = db.validationLogs
    ∧ (removeBlacklist db mid now).2.blacklist.length = db.blacklist.length
    ∧ (removeBlacklist db mid now).2.blacklist = db.blacklist.map (fun b =>
        if b.machineId == mid then { b with isActive := false, updatedAt := now }
        else b)
    ∧ (∀ b, b ∈ db.blacklist → b.machineId ≠ mid →
        b ∈ (removeBlacklist db mid now).2.blacklist)
    ∧ (removeBlacklist db mid now).1 = db.blacklist.any (fun b => b.machineId == mid) := by
  refine ⟨rfl, rfl, rfl, rfl, by simp [removeBlacklist], rfl, ?_, rfl⟩
  intro b hb hbm
  refine List.mem_map.mpr ⟨b, hb, ?_⟩
  have hc : (b.machineId == mid) = false := by simp [hbm]
  simp [hc]

/-- Witness for C9: removing machine `"M2"` from the blacklist of
`dbSerialAndBlacklist` leaves the serial table exactly as it was and
deactivates the single blacklist row in place. -/
theorem c9_remove_blacklist_frame_witness :
    (removeBlacklist dbSerialAndBlacklist "M2" 60).2.serials
      = dbSerialAndBlacklist.serials
    ∧ (removeBlacklist dbSerialAndBlacklist "M2" 60).2.blacklist
        = [{ blM2 with isActive := false, updatedAt := 60 }] := by
  have h := c9_remove_blacklist_frame dbSerialAndBlacklist "M2" 60
  refine ⟨h.1, ?_⟩
  rw [h.2.2.2.2.2.1]
  decide

/-- C7: a freshly issued token verifies true on successive `VerifyToken`
calls made strictly before its `expires_at` (the first call leaves the
state unchanged, so any number of further calls behave identically:
tokens are reusable, not single-use), and verifies false on every call at
or after `expires_at`; the advisory `cleanup_expired_tokens` sweep run
before expiry does not terminate the token either — expiry is the only
termination path. -/
theorem c7_token_reusable_until_expiry (db : DBState) (token rtype : String)
    (now t1 t2 t3 t4 : Int) (h1 : t1 < now + tokenLifetime)
    (h2 : t2 < now + tokenLifetime) (h3 : now + tokenLifetime ≤ t3)
    (h4 : t4 < now + tokenLifetime) :
    validateToken (generateValidationToken db token rtype now).2 token t1
      = (true, (generateValidationToken db token rtype now).2)
    ∧ (validateToken
        ((validateToken (generateValidationToken db token rtype now).2 token t1).2)
        token t2).1 = true
    ∧ (validateToken (generateValidationToken db token rtype now).2 token t3).1
        = false
    ∧ (validateToken
        ((cleanupExpiredTokens (generateValidationToken db token rtype now).2 t4).1)
        token t2).1 = true := by
  have hmain : ∀ t, t < now + tokenLifetime →
      validateToken (generateValidationToken db token rtype now).2 token t
        = (true, (generateValidationToken db token rtype now).2) := by
    intro t ht
    simp [validateToken, generateValidationToken, List.find?_cons, ht]
  refine ⟨hmain t1 h1, ?_, ?_, ?_⟩
  · rw [hmain t1 h1, hmain t2 h2]
  · simp [validateToken, validateTokenDb, generateValidationToken,
      List.find?_cons, not_lt.mpr h3]
  · simp [validateToken, cleanupExpiredTokens, generateValidationToken,
      List.find?_cons, List.filter_cons, h4, h2]

/-- Witness for C7: token `"T"` issued at time 0 verifies true at times
100 and then 200, survives a cleanup sweep at time 300, and verifies
false at its expiry instant 86400. -/
theorem c7_token_reusable_until_expiry_witness :
    validateToken dbTok "T" 100 = (true, dbTok)
    ∧ (validateToken (validateToken dbTok "T" 100).2 "T" 200).1 = true
    ∧ (validateToken dbTok "T" 86400).1 = false
    ∧ (validateToken ((cleanupExpiredTokens dbTok 300).1) "T" 200).1 = true := by
  exact c7_token_reusable_until_expiry emptyDB "T" "validation" 0 100 200 86400
    300 (by decide) (by decide) (by decide) (by decide)

/-- C8 counterexample: the claim "every `VerifyToken` call that returns
true increments the stored `usage_count` by exactly 1" is false on the
cache path.  Right after issuance, the token `"T"` is in the in-memory
cache; the verification at time 10 returns true yet leaves the whole
store — in particular the `auth_tokens` row's `usage_count`, still 0 —
completely unchanged (`validate_token` returns from the cache before any
store access, `app.py:511-514`). -/
theorem c8_usage_count_counterexample :
    (validateToken dbTok "T" 10).1 = true
    ∧ (validateToken dbTok "T" 10).2 = dbTok
    ∧ dbTok.authTokens.head?.map (fun r => r.usageCount) = some 0
    ∧ (validateToken dbTok "T" 10).2.authTokens.head?.map (fun r => r.usageCount)
        = some 0 := by
  exact ⟨by decide, by decide, by decide, by decide⟩

/-- C8 amended: a verification answered by a non-expired in-memory cache
entry returns true with no state change at all (no `usage_count`
increment, no cache refresh); a verification that misses the cache and
hits a non-expired active store row returns true, increments
`usage_count` by exactly 1 (stamping `last_used_at`) on every row bearing
the token's digest, and refreshes the cache entry; and no verification
ever modifies any token's `expires_at`. -/
theorem c8_amended_usage_count (db : DBState) (token : String) (now : Int) :
    (∀ e, db.activeTokens.find? (fun c => c.token == token) = some e →
      now < e.expiresAt → validateToken db token now = (true, db))
    ∧ (∀ r, db.activeTokens.find? (fun c => c.token == token) = none →
      db.authTokens.find? (fun q => q.tokenHash == sha256Hex token && q.isActive)
        = some r →
      now < r.expiresAt →
      (validateToken db token now).1 = true
      ∧ (validateToken db token now).2.authTokens = db.authTokens.map (fun q =>
          if q.tokenHash == sha256Hex token then
            { q with usageCount := q.usageCount + 1, lastUsedAt := some now }
          else q)
      ∧ (validateToken db token now).2.activeTokens.head?
          = some { token := token, expiresAt := r.expiresAt,
                   tokenType := r.tokenType, createdAt := now })
    ∧ (validateToken db token now).2.authTokens.map
        (fun r => (r.tokenHash, r.expiresAt))
      = db.authTokens.map (fun r => (r.tokenHash, r.expiresAt)) := by
  refine ⟨?_, ?_, validateToken_hash_expiry db token now⟩
  · intro e he hlt
    simp [validateToken, he, hlt]
  · intro r hc hf hlt
    have hvt : validateToken db token now = validateTokenDb db token now := by
      simp [validateToken, hc]
    have hact : r.isActive = true := by
      have hp := List.find?_some hf
      exact (Bool.and_eq_true _ _ |>.mp hp).2
    rw [hvt]
    simp [validateTokenDb, hf, hlt, hact]

/-- Witness for the amended C8: the cache-hit verification of `"T"`
leaves `dbTok` unchanged; after dropping the cache, the store-path
verification returns true and raises the row's `usage_count` to 1. -/
theorem c8_amended_usage_count_witness :
    validateToken dbTok "T" 10 = (true, dbTok)
    ∧ (validateToken dbTokStoreOnly "T" 10).1 = true
    ∧ (validateToken dbTokStoreOnly "T" 10).2.authTokens.head?.map
        (fun r => r.usageCount) = some 1 := by
  refine ⟨?_, ?_, ?_⟩
  · exact (c8_amended_usage_count dbTok "T" 10).1
      { token := "T", expiresAt := 86400, tokenType := "validation",
        createdAt := 0 } (by decide) (by decide)
  · exact ((c8_amended_usage_count dbTokStoreOnly "T" 10).2.1
      { tokenHash := sha256Hex "T", tokenType := "validation", createdAt := 0,
        expiresAt := 86400, isActive := true, usageCount := 0,
        lastUsedAt := none } (by decide) (by decide) (by decide)).1
  · have h := ((c8_amended_usage_count dbTokStoreOnly "T" 10).2.1
      { tokenHash := sha256Hex "T", tokenType := "validation", createdAt := 0,
        expiresAt := 86400, isActive := true, usageCount := 0,
        lastUsedAt := none } (by decide) (by decide) (by decide)).2.1
    rw [h]
    decide

/-- C6 counterexample: the two storage backends do NOT have the same
effect on re-registration.  Reachable scenario: register `"K"` at time 0,
validate once (check_count becomes 1), revoke at time 10, then
re-register `"K"` at time 20 with machine `"M2"`.  The PostgreSQL
`ON CONFLICT` path keeps the row revoked with `check_count` 1 and its
original `created_date` 0, so a subsequent `Validate` is denied
`Revoked`; the SQLite `INSERT OR REPLACE` path resurrects the row
(active, `check_count` 0, `created_date` 20) and the same `Validate`
succeeds. -/
theorem c6_reregister_backend_counterexample :
    vOutcome (registerSerialEnhancedPg dbRevoked "K" "M2" "u" "pro" 30 false 20).2
        "K" "M2" none "ip" 25 = .revoked false
    ∧ (vOutcome (registerSerialEnhancedSqlite dbRevoked "K" "M2" "u" "pro" 30 false
        20).2 "K" "M2" none "ip" 25).isValid = true
    ∧ (registerSerialEnhancedPg dbRevoked "K" "M2" "u" "pro" 30 false
        20).2.serials.head?.map (fun r => (r.isActive, r.checkCount, r.createdDate))
        = some (false, 1, 0)
    ∧ (registerSerialEnhancedSqlite dbRevoked "K" "M2" "u" "pro" 30 false
        20).2.serials.head?.map (fun r => (r.isActive, r.checkCount, r.createdDate))
        = some (true, 0, 20) := by
  exact ⟨by decide, by decide, by decide, by decide⟩

/-- C6 amended: re-registering an existing `serial_key` is an in-place
upsert on both backends in the sense that no duplicate row results and
the machine binding, user, tier, expiry and force-online flags all take
the new registration's values (so a subsequent `Validate` reflects the
latest values of those fields) — but the backends differ on the columns
the upsert does not list: the PostgreSQL `ON CONFLICT DO UPDATE` path
preserves the existing row's `created_date`, `is_active`, `check_count`,
revocation and usage columns, while the SQLite `INSERT OR REPLACE` path
replaces the whole row, resetting them to schema defaults (active, zero
count, no revocation, `created_date` = now). -/
theorem c6_amended_reregister (db : DBState) (key mid user tier : String)
    (days : Int) (fo : Bool) (now : Int)
    (hex : db.serials.any (fun r => r.serialKey == key) = true) :
    (registerSerialEnhancedPg db key mid user tier days fo now).2.serials.length
      = db.serials.length
    ∧ (registerSerialEnhancedPg db key mid user tier days fo now).2.serials
        = db.serials.map (fun r =>
            if r.serialKey == key then
              { r with machineId := mid, userName := user, tier := tier,
                       expiryDate := now + days * 86400,
                       forceOnline := fo, validationRequired := fo,
                       offlineDisabled := fo, serverValidationOnly := fo,
                       forceOnlineMarker :=
                         if fo then some "FORCE_ONLINE_V6" else none,
                       updatedAt := now }
            else r)
    ∧ (∀ r, r ∈ db.serials → r.serialKey = key →
        { r with machineId := mid, userName := user, tier := tier,
                 expiryDate := now + days * 86400,
                 forceOnline := fo, validationRequired := fo,
                 offlineDisabled := fo, serverValidationOnly := fo,
                 forceOnlineMarker :=
                   if fo then some "FORCE_ONLINE_V6" else none,
                 updatedAt := now }
          ∈ (registerSerialEnhancedPg db key mid user tier days fo now).2.serials)
    ∧ (registerSerialEnhancedSqlite db key mid user tier days fo now).2.serials
        = db.serials.filter (fun r =>
            !(r.serialKey == key) && !(r.serialHash == sha256Hex key))
          ++ [mkFreshSerial key mid user tier days fo now]
    ∧ ((registerSerialEnhancedSqlite db key mid user tier days fo
        now).2.serials.filter (fun r => r.serialKey == key)).length = 1
    ∧ (mkFreshSerial key mid user tier days fo now).isActive = true
    ∧ (mkFreshSerial key mid user tier days fo now).checkCount = 0
    ∧ (mkFreshSerial key mid user tier days fo now).revokedDate = none
    ∧ (mkFreshSerial key mid user tier days fo now).revokedReason = none
    ∧ (mkFreshSerial key mid user tier days fo now).createdDate = now := by
  have hser : (registerSerialEnhancedPg db key mid user tier days fo now).2.serials
      = db.serials.map (fun r =>
          if r.serialKey == key then
            { r with machineId := mid, userName := user, tier := tier,
                     expiryDate := now + days * 86400,
                     forceOnline := fo, validationRequired := fo,
                     offlineDisabled := fo, serverValidationOnly := fo,
                     forceOnlineMarker :=
                       if fo then some "FORCE_ONLINE_V6" else none,
                     updatedAt := now }
          else r) := by
    simp [registerSerialEnhancedPg, hex]
  refine ⟨by rw [hser]; simp, hser, ?_, rfl, ?_, rfl, rfl, rfl, rfl, rfl⟩
  · intro r hr hk
    rw [hser]
    refine List.mem_map.mpr ⟨r, hr, ?_⟩
    have hc : (r.serialKey == key) = true := by simp [hk]
    simp [hc]
  · have hsq : (registerSerialEnhancedSqlite db key mid user tier days fo
        now).2.serials
        = db.serials.filter (fun r =>
            !(r.serialKey == key) && !(r.serialHash == sha256Hex key))
          ++ [mkFreshSerial key mid user tier days fo now] := rfl
    rw [hsq, List.filter_append]
    have h1 : ((db.serials.filter (fun r =>
        !(r.serialKey == key) && !(r.serialHash == sha256Hex key))).filter
        (fun r => r.serialKey == key)) = [] := by
      rw [List.filter_eq_nil_iff]
      intro a ha
      have hpa := (List.mem_filter.mp ha).2
      simp only [Bool.and_eq_true, Bool.not_eq_true'] at hpa
      simp [hpa.1]
    rw [h1]
    simp [mkFreshSerial]

/-- Witness for the amended C6: re-registering `"K"` over the revoked
store keeps the table a single row on the PostgreSQL path, keeps exactly
one `"K"` row on the SQLite path, and the SQLite replacement row has the
schema defaults. -/
theorem c6_amended_reregister_witness :
    (registerSerialEnhancedPg dbRevoked "K" "M2" "u" "pro" 30 false
      20).2.serials.length = dbRevoked.serials.length
    ∧ ((registerSerialEnhancedSqlite dbRevoked "K" "M2" "u" "pro" 30 false
        20).2.serials.filter (fun r => r.serialKey == "K")).length = 1
    ∧ (mkFreshSerial "K" "M2" "u" "pro" 30 false 20).checkCount = 0 := by
  have h := c6_amended_reregister dbRevoked "K" "M2" "u" "pro" 30 false 20
    (by decide)
  exact ⟨h.1, h.2.2.2.2.1, h.2.2.2.2.2.2.1⟩

theorem registerSerialEnhanced_fst (usePg : Bool) (db : DBState)
    (key mid user tier : String) (days : Int) (fo : Bool) (now : Int) :
    (registerSerialEnhanced usePg db key mid user tier days fo now).1 = true := by
  cases usePg with
  | false => rfl
  | true =>
    show (registerSerialEnhancedPg db key mid user tier days fo now).1 = true
    unfold registerSerialEnhancedPg
    split <;> rfl

theorem registerSerialEnhanced_blacklist (usePg : Bool) (db : DBState)
    (key mid user tier : String) (days : Int) (fo : Bool) (now : Int) :
    (registerSerialEnhanced usePg db key mid user tier days fo now).2.blacklist
      = db.blacklist := by
  cases usePg with
  | false => rfl
  | true =>
    show (registerSerialEnhancedPg db key mid user tier days fo now).2.blacklist
      = db.blacklist
    unfold registerSerialEnhancedPg
    split <;> rfl

theorem registerRoute_ok (usePg : Bool) (db : DBState)
    (key mid tier user : String) (days now : Int)
    (hk : key ≠ "") (hm : mid ≠ "") :
    (registerRoute usePg db adminKey key mid tier user days now).1 = .ok true
    ∧ (registerRoute usePg db adminKey key mid tier user days now).2
        = (registerSerialEnhanced usePg db key mid user tier days false now).2 := by
  simp [registerRoute, hk, hm, registerSerialEnhanced_fst]

/-- C10: the `/api/register` route performs no validation of the `days`
argument.  For every `days` (in particular every `days ≤ 0`) the
registration of a fresh serial succeeds with `.ok true` — the only 4xx
exits are the admin key and the missing serial/machine-id checks, so a
registration is never rejected on account of `days` — and with
`days ≤ 0` the created row's `expiry_date = now + days` is at or before
the creation time, so every subsequent `Validate` of that serial that
reaches the expiry check (same machine, not blacklisted, no online mode)
is denied `Expired`.  Holds on both storage backends. -/
theorem c10_register_days_unchecked (usePg : Bool) (db : DBState)
    (key mid tier user ip : String) (days d2 now t2 : Int)
    (hk : key ≠ "") (hm : mid ≠ "")
    (hfresh : ∀ r ∈ db.serials, r.serialKey ≠ key ∧ r.serialHash ≠ sha256Hex key)
    (hnb : db.blacklist.find? (fun e => e.machineId == mid && e.isActive) = none)
    (hd : days ≤ 0) (ht : now < t2) :
    (registerRoute usePg db adminKey key mid tier user days now).1 = .ok true
    ∧ (registerRoute usePg db adminKey key mid tier user d2 now).1 = .ok true
    ∧ (mkFreshSerial key mid user tier days false now).expiryDate ≤ now
    ∧ vOutcome (registerRoute usePg db adminKey key mid tier user days now).2
        key mid none ip t2 = .expired false := by
  have hmul : days * 86400 ≤ 0 := by
    have h0 := mul_le_mul_of_nonneg_right hd (by norm_num : (0:Int) ≤ 86400)
    simpa using h0
  refine ⟨(registerRoute_ok usePg db key mid tier user days now hk hm).1,
          (registerRoute_ok usePg db key mid tier user d2 now hk hm).1, ?_, ?_⟩
  · simp only [mkFreshSerial]
    omega
  · rw [(registerRoute_ok usePg db key mid tier user days now hk hm).2]
    have hser : (registerSerialEnhanced usePg db key mid user tier days false
        now).2.serials
        = db.serials ++ [mkFreshSerial key mid user tier days false now] := by
      cases usePg with
      | true =>
        have hany : db.serials.any (fun r => r.serialKey == key) = false := by
          cases hca : db.serials.any (fun r => r.serialKey == key) with
          | false => rfl
          | true =>
            obtain ⟨a, hamem, hpa⟩ := List.any_eq_true.mp hca
            exact absurd (by simpa using hpa) (hfresh a hamem).1
        simp [registerSerialEnhanced, registerSerialEnhancedPg, hany]
      | false =>
        have hfil : db.serials.filter (fun r =>
            !(r.serialKey == key) && !(r.serialHash == sha256Hex key))
            = db.serials := by
          apply List.filter_eq_self.mpr
          intro a ha
          simp [(hfresh a ha).1, (hfresh a ha).2]
        simp [registerSerialEnhanced, registerSerialEnhancedSqlite, hfil]
    have hb2 : (registerSerialEnhanced usePg db key mid user tier days false
        now).2.blacklist.find? (fun e => e.machineId == mid && e.isActive)
        = none := by
      rw [registerSerialEnhanced_blacklist]
      exact hnb
    have hnone : db.serials.find? (fun r => r.serialHash == sha256Hex key)
        = none := by
      apply List.find?_eq_none.mpr
      intro a ha
      simp [(hfresh a ha).2]
    have hfind : (registerSerialEnhanced usePg db key mid user tier days false
        now).2.serials.find? (fun r => r.serialHash == sha256Hex key)
        = some (mkFreshSerial key mid user tier days false now) := by
      rw [hser, List.find?_append, hnone]
      simp [mkFreshSerial]
    have hv := validate_found_eq
      (registerSerialEnhanced usePg db key mid user tier days false now).2
      key mid none ip t2 (mkFreshSerial key mid user tier days false now)
      hb2 hfind
    have heq : checkToken
        (registerSerialEnhanced usePg db key mid user tier days false now).2
        (mkFreshSerial key mid user tier days false now) (sha256Hex key) mid
        none ip t2
        = checkBinding
            (registerSerialEnhanced usePg db key mid user tier days false now).2
            (mkFreshSerial key mid user tier days false now) (sha256Hex key) mid
            none ip t2 := by
      simp [checkToken, requiresToken, mkFreshSerial]
    have hexp := checkBinding_expired
      (registerSerialEnhanced usePg db key mid user tier days false now).2
      (mkFreshSerial key mid user tier days false now) (sha256Hex key) mid
      none ip t2 rfl rfl (by simp only [mkFreshSerial]; omega)
    simp only [vOutcome, hv, heq, hexp]
    rfl

/-- Witness for C10: registering `"K"` with `days = -3` at time 100 via
the route succeeds, and validating it from its own machine at time 101
is denied `Expired`. -/
theorem c10_register_days_unchecked_witness :
    (registerRoute false emptyDB adminKey "K" "M1" "pro" "u" (-3) 100).1
      = .ok true
    ∧ vOutcome (registerRoute false emptyDB adminKey "K" "M1" "pro" "u" (-3)
        100).2 "K" "M1" none "ip" 101 = .expired false := by
  have h := c10_register_days_unchecked false emptyDB "K" "M1" "pro" "u" "ip"
    (-3) 7 100 101 (by decide) (by decide)
    (fun r hr => absurd hr (List.not_mem_nil r)) (by decide) (by decide)
    (by decide)
  exact ⟨h.1, h.2.2.2⟩

end BossDetector
